import Mathlib

/-!
Shallow embedding of the py-bitable HTTP client layer
(`src/py_bitable/client.py` and `src/py_bitable/http_client.py`),
together with theorems settling the specification claims about it.

Bytes are modelled as naturals, Python strings as `String`, Python floats
that are only ever stored and compared (timeouts, retry delay) as `Rat`,
and Python exceptions as an inductive type.  Stateful code is modelled by
explicit state passing; the responses the server would give to the
requests a method issues are passed in as explicit arguments, and each
embedded operation additionally reports how many requests of each kind it
actually issued.
-/

namespace PyBitable

/-- The Python exceptions that the embedded code can raise. -/
inductive PyExc where
  | valueError (msg : String)
  | attributeError (msg : String)
  deriving DecidableEq

/-! ### http_client.py: the `singleton` decorator and `HttpClient` -/

/-- The observable configuration of one `HttpClient` object
(`HttpClient.__init__`, http_client.py lines 29-50).  `objId` models Python
object identity: two attributes hold the same object iff the whole
structures (including `objId`) are equal. -/
structure HttpClient where
  objId : Nat
  timeout : Rat
  qps_limit : Nat
  max_workers : Nat
  deriving DecidableEq

/-- The state of the `singleton` decorator's closed-over `instances` dict
(http_client.py lines 10-19), restricted to the one decorated class
`HttpClient`: the instance stored under the key `HttpClient`, if any,
plus an allocation counter supplying fresh object identities. -/
structure SingletonState where
  inst : Option HttpClient
  nextId : Nat
  deriving DecidableEq

/-- A process in which no `HttpClient` has been constructed yet. -/
def SingletonState.fresh : SingletonState := ⟨none, 0⟩

/-- `HttpClient.__init__` (http_client.py lines 29-50): stores the three
configuration arguments on the new object. -/
def HttpClient.init (objId : Nat) (timeout : Rat) (qps_limit max_workers : Nat) :
    HttpClient :=
  ⟨objId, timeout, qps_limit, max_workers⟩

/-- `get_instance` of the `singleton` decorator (http_client.py lines 14-17):
if no instance of the class is stored, construct one from the given
arguments and store it; otherwise return the stored instance, ignoring the
arguments. -/
def HttpClient.getInstance (st : SingletonState) (timeout : Rat)
    (qps_limit max_workers : Nat) : HttpClient × SingletonState :=
  match st.inst with
  | some c => (c, st)
  | none =>
      let c := HttpClient.init st.nextId timeout qps_limit max_workers
      (c, ⟨some c, st.nextId + 1⟩)

/-! ### client.py: `BitableApiClient.__init__` -/

/-- The attributes of `BitableApiClient` set by `__init__`
(client.py lines 50-74).  The env-derived `_max_retries`, `_retry_delay`
and `_timeout` attributes (lines 72-74) are read from `os.getenv` and never
used by any other method, so they are not modelled. -/
structure BitableApiClient where
  app_id : String
  app_secret : String
  base_url : String
  tenant_access_token : Option String
  client_qps5 : HttpClient
  client_qps100 : HttpClient
  deriving DecidableEq

/-- `BitableApiClient.__init__` (client.py lines 50-74): stores the
credentials, initialises the token caches to `None`, and evaluates
`HttpClient(timeout=30, qps_limit=5, max_workers=5)` followed by
`HttpClient(timeout=30, qps_limit=100, max_workers=10)`, both of which go
through the `singleton` decorator's `get_instance`. -/
def BitableApiClient.init (app_id app_secret base_url : String)
    (st : SingletonState) : BitableApiClient × SingletonState :=
  let r5 := HttpClient.getInstance st 30 5 5
  let r100 := HttpClient.getInstance r5.2 30 100 10
  (⟨app_id, app_secret, base_url, none, r5.1, r100.1⟩, r100.2)

/-! ### client.py: the `retry_on_exception` decorator -/

/-- The outcome of one invocation of a wrapped Python function: it returns
a value or raises an exception. -/
inductive Attempt (α : Type) where
  | ok (a : α)
  | exn (e : PyExc)
  deriving DecidableEq

/-- The result of one call of the decorated function: a normal return, a
raised exception, or the implicit `None` return that happens when the
`while` loop of the wrapper exits without returning (only possible when
`max_retries = 0`). -/
inductive CallResult (α : Type) where
  | value (a : α)
  | raised (e : PyExc)
  | noneRet
  deriving DecidableEq

/-- The message of the `AttributeError` raised by `time.sleep(delay)`. -/
def sleepAttrMsg : String :=
  "'builtin_function_or_method' object has no attribute 'sleep'"

/-- `time.sleep(delay)` as evaluated inside client.py: line 7 of client.py
is `from time import time`, which binds the module-level name `time` to the
function `time.time`, so the attribute access `time.sleep` on line 37
raises `AttributeError` instead of sleeping. -/
def timeSleep (_delay : Rat) : Except PyExc Unit :=
  .error (.attributeError sleepAttrMsg)

/-- The `while retries < max_retries` loop of the `wrapper` closure of
`retry_on_exception` (client.py lines 28-37), written with the decreasing
fuel `max_retries - retries`, so `fuel = 0` is `retries >= max_retries`
(loop exits, implicit `None` return) and the test
`retries + 1 >= max_retries` of line 35 is `fuel = 1`.  `caught e` is
membership of `e` in the configured `exceptions` tuple; `attempts n` is the
outcome of the (n+1)-st invocation of the wrapped function.  Returns the
call result together with the number of invocations of the wrapped
function actually made. -/
def retryFuel (caught : PyExc → Bool) (delay : Rat) (attempts : Nat → Attempt α) :
    Nat → Nat → CallResult α × Nat
  | 0, _ => (.noneRet, 0)
  | fuel + 1, retries =>
    match attempts retries with
    | .ok a => (.value a, 1)
    | .exn e =>
      if caught e then
        if fuel = 0 then
          (.raised e, 1)
        else
          match timeSleep delay with
          | .error se => (.raised se, 1)
          | .ok _ =>
              let r := retryFuel caught delay attempts fuel (retries + 1)
              (r.1, r.2 + 1)
      else (.raised e, 1)

/-- The full decorated call (`wrapper`, client.py lines 28-37): the loop
starting at `retries = 0`, i.e. with fuel `max_retries`. -/
def retryWrapper (caught : PyExc → Bool) (max_retries : Nat) (delay : Rat)
    (attempts : Nat → Attempt α) : CallResult α × Nat :=
  retryFuel caught delay attempts max_retries 0

/-! ### client.py: `upload_file_part` -/

/-- A decoded server response body, as far as the client inspects it:
the `code` field and the `msg` field. -/
structure ApiResponse where
  code : Int
  msg : String
  deriving DecidableEq

/-- One attempt of the body of `upload_file_part` (client.py lines 182-205),
as a function of the response the part request receives: a body with
`code != 0` raises `ValueError` carrying the server message, otherwise the
attempt succeeds (returning the response's data). -/
def uploadFilePartOnce (resp : ApiResponse) : Attempt ApiResponse :=
  if resp.code ≠ 0 then .exn (.valueError ("Failed to upload part: " ++ resp.msg))
  else .ok resp

/-- `upload_file_part` as decorated by `@retry_on_exception()` with the
decorator's defaults (client.py lines 19-23 and 168): the configured
exception tuple is `(Exception,)`, which catches every `PyExc`,
`max_retries = 3` and `delay = 1.0`.  `responses n` is the response the
(n+1)-st attempt would receive. -/
def uploadFilePart (responses : Nat → ApiResponse) : CallResult ApiResponse × Nat :=
  retryWrapper (fun _ => true) 3 1 (fun n => uploadFilePartOnce (responses n))

/-! ### client.py: `_get_tenant_access_token`, `_get_headers`,
`get_table_fields` and `list_tables` -/

/-- A decoded token-fetch response body, as far as
`_get_tenant_access_token` inspects it. -/
structure TokenResponse where
  code : Int
  msg : String
  tenant_access_token : String
  deriving DecidableEq

/-- Python truthiness of an `Optional[str]`: `None` and the empty string
are falsy, every other string is truthy. -/
def optStrTruthy : Option String → Bool
  | none => false
  | some s => !(s == "")

/-- `_get_tenant_access_token` (client.py lines 76-95) as a function of the
cached `_tenant_access_token` and of the response the token-fetch POST
would receive.  Line 82 tests the truthiness of the cached value.  Returns
(result, new cached token, number of token-fetch requests issued). -/
def getTenantAccessToken (tok : Option String) (resp : TokenResponse) :
    Except PyExc String × Option String × Nat :=
  if optStrTruthy tok then (.ok (tok.getD ""), tok, 0)
  else if resp.code ≠ 0 then
    (.error (.valueError ("Failed to get access token: " ++ resp.msg)), tok, 1)
  else (.ok resp.tenant_access_token, some resp.tenant_access_token, 1)

/-- The `AttributeError` raised by evaluating `self.http_get`:
`BitableApiClient` (client.py lines 44-362) defines no attribute or method
named `http_get`, has no base class and no `__getattr__`, so the attribute
lookups on lines 122, 288 and 297 raise `AttributeError`. -/
def httpGetAttrError : PyExc :=
  .attributeError "'BitableApiClient' object has no attribute 'http_get'"

/-- `get_table_fields` (client.py lines 109-128) as a function of the cached
token and the token-fetch response: it computes the url, builds headers via
`_get_headers` (client.py lines 97-107, which calls
`_get_tenant_access_token` and may issue the token-fetch request and may
raise), then evaluates `self.http_get`, which raises `AttributeError`; the
rest of the body (lines 122-128) is unreachable.  Returns (result, new
cached token, token-fetch requests issued, fields GET requests issued). -/
def getTableFields (tok : Option String) (tokenResp : TokenResponse) :
    Except PyExc Unit × Option String × Nat × Nat :=
  match getTenantAccessToken tok tokenResp with
  | (.error e, tok2, n) => (.error e, tok2, n, 0)
  | (.ok _, tok2, n) => (.error httpGetAttrError, tok2, n, 0)

/-- `list_tables` (client.py lines 277-305) as a function of the cached
token and the token-fetch response: it computes the url, builds headers via
`_get_headers`, then evaluates `self.http_get`, which raises
`AttributeError`; the pagination loop (lines 288-305) is unreachable.
Returns (result, new cached token, token-fetch requests issued, tables GET
requests issued). -/
def listTables (tok : Option String) (tokenResp : TokenResponse) :
    Except PyExc Unit × Option String × Nat × Nat :=
  match getTenantAccessToken tok tokenResp with
  | (.error e, tok2, n) => (.error e, tok2, n, 0)
  | (.ok _, tok2, n) => (.error httpGetAttrError, tok2, n, 0)

/-! ### client.py: the chunking, part loop and finish gating of `upload_file` -/

/-- Python slice `l[start:stop]` for `start ≤ stop`, as used on line 267 of
client.py (both bounds are non-negative and `stop` is clamped to the length
by the `take`). -/
def pySlice (l : List Nat) (start stop : Nat) : List Nat :=
  (l.drop start).take (stop - start)

/-- The chunks computed by the `for seq in range(block_num)` loop of
`upload_file` (client.py lines 264-268): for each seq,
`start = seq * block_size`, `end = min((seq + 1) * block_size,
len(file_data))`, chunk = `file_data[start:end]`, paired with seq. -/
def uploadChunks (file_data : List Nat) (block_size block_num : Nat) :
    List (Nat × List Nat) :=
  (List.range block_num).map fun seq =>
    (seq, pySlice file_data (seq * block_size)
            (min ((seq + 1) * block_size) file_data.length))

/-- `zlib.adler32` over a byte string (bytes as naturals < 256): running
sums `a` (starting at 1) and `b` (starting at 0), each reduced modulo the
prime 65521 after every byte, with result `b * 65536 + a`. -/
def adler32 (data : List Nat) : Nat :=
  let p := data.foldl
    (fun (p : Nat × Nat) byte => ((p.1 + byte) % 65521, (p.2 + p.1 + byte) % 65521))
    ((1, 0) : Nat × Nat)
  p.2 * 65536 + p.1

/-- The multipart request assembled by `upload_file_part` (client.py lines
182-200): the form fields `upload_id`, `seq`, `size = len(file_data)` and
`checksum = zlib.adler32(file_data) & 0xFFFFFFFF`, plus the binary file
part carrying exactly the chunk bytes. -/
structure UploadPartRequest where
  upload_id : String
  seq : Nat
  size : Nat
  checksum : Nat
  filePart : List Nat
  deriving DecidableEq

/-- The request `upload_file_part(upload_id, seq, file_data)` sends. -/
def uploadPartRequest (upload_id : String) (seq : Nat) (file_data : List Nat) :
    UploadPartRequest :=
  { upload_id := upload_id
    seq := seq
    size := file_data.length
    checksum := adler32 file_data &&& 0xFFFFFFFF
    filePart := file_data }

/-- The externally visible calls `upload_file` makes for one session after
a successful prepare. -/
inductive UploadEvent where
  | prepare
  | part (seq : Nat)
  | finish (block_num : Nat)
  deriving DecidableEq

/-- The `for seq in range(block_num)` loop of `upload_file` (client.py
lines 264-268), written with the decreasing fuel `block_num - seq`: each
iteration issues `upload_file_part` for the current seq; if that (wrapped)
call raises, the exception propagates out of `upload_file` at once,
otherwise the loop continues with seq + 1.  `responses s n` is the response
the (n+1)-st attempt at part `s` would receive.  Returns the seq numbers
for which a part call was issued, in order of issue, together with the
exception that escaped the loop, if any. -/
def uploadPartsFuel (responses : Nat → Nat → ApiResponse) :
    Nat → Nat → List Nat × Option PyExc
  | 0, _ => ([], none)
  | fuel + 1, s =>
    match (uploadFilePart (responses s)).1 with
    | .raised e => ([s], some e)
    | _ =>
        let r := uploadPartsFuel responses fuel (s + 1)
        (s :: r.1, r.2)

/-- The whole part loop, starting at seq = 0 (fuel `block_num`). -/
def uploadParts (responses : Nat → Nat → ApiResponse) (block_num : Nat) :
    List Nat × Option PyExc :=
  uploadPartsFuel responses block_num 0

/-- The event trace of `upload_file` after a successful prepare (client.py
lines 248-275): the prepare call, one part call per issued seq in order,
and — only when no part call raised — the `upload_file_finish` call with
this session's `block_num` (lines 270-274; an exception from the loop
propagates out of `upload_file` before line 271, so finish is never
reached). -/
def uploadFileTrace (responses : Nat → Nat → ApiResponse) (block_num : Nat) :
    List UploadEvent :=
  UploadEvent.prepare ::
    ((uploadParts responses block_num).1.map UploadEvent.part ++
      match (uploadParts responses block_num).2 with
      | none => [UploadEvent.finish block_num]
      | some _ => [])

end PyBitable

namespace PyBitable

/-! ### Theorems for claims C1 and C10 -/

/-- C10: HttpClient construction is idempotent across the process: for every
pair of constructor argument tuples, calling `HttpClient(a)` and then
`HttpClient(b)` returns the identical instance created by the first call,
with the second call's arguments (timeout, qps_limit, max_workers) silently
ignored. -/
theorem http_client_construction_idempotent (st : SingletonState)
    (h : st.inst = none) (t1 t2 : Rat) (q1 w1 q2 w2 : Nat) :
    (HttpClient.getInstance (HttpClient.getInstance st t1 q1 w1).2 t2 q2 w2)
        = ((HttpClient.getInstance st t1 q1 w1).1,
           (HttpClient.getInstance st t1 q1 w1).2) ∧
    (HttpClient.getInstance st t1 q1 w1).1.timeout = t1 ∧
    (HttpClient.getInstance st t1 q1 w1).1.qps_limit = q1 ∧
    (HttpClient.getInstance st t1 q1 w1).1.max_workers = w1 := by
  simp [HttpClient.getInstance, h, HttpClient.init]

/-- Witness for C10 at a concrete input: in a fresh process, constructing
with (30, 5, 5) and then (30, 100, 10) returns the first instance both
times, carrying qps_limit 5 and max_workers 5. -/
theorem http_client_construction_idempotent_witness :
    (HttpClient.getInstance
        (HttpClient.getInstance SingletonState.fresh 30 5 5).2 30 100 10)
        = ((HttpClient.getInstance SingletonState.fresh 30 5 5).1,
           (HttpClient.getInstance SingletonState.fresh 30 5 5).2) ∧
    (HttpClient.getInstance SingletonState.fresh 30 5 5).1.timeout = 30 ∧
    (HttpClient.getInstance SingletonState.fresh 30 5 5).1.qps_limit = 5 ∧
    (HttpClient.getInstance SingletonState.fresh 30 5 5).1.max_workers = 5 :=
  http_client_construction_idempotent SingletonState.fresh rfl 30 30 5 5 100 10

/-- C1 (code bug): in a fresh process, `BitableApiClient.__init__` does NOT
produce two independent HTTP clients: because of the `singleton` decorator,
`client_qps100` is the very same object as `client_qps5`, and both carry
qps_limit = 5 and max_workers = 5; the arguments qps_limit=100,
max_workers=10 of the second construction are discarded. -/
theorem bitable_init_shares_one_singleton_client :
    (BitableApiClient.init "app" "secret" "https://open.feishu.cn/open-apis"
        SingletonState.fresh).1.client_qps100
      = (BitableApiClient.init "app" "secret" "https://open.feishu.cn/open-apis"
        SingletonState.fresh).1.client_qps5 ∧
    (BitableApiClient.init "app" "secret" "https://open.feishu.cn/open-apis"
        SingletonState.fresh).1.client_qps100.qps_limit = 5 ∧
    (BitableApiClient.init "app" "secret" "https://open.feishu.cn/open-apis"
        SingletonState.fresh).1.client_qps100.max_workers = 5 :=
  ⟨rfl, rfl, rfl⟩

/-! ### Theorems for claims C2 and C3 -/

/-- C2 (code bug): with the decorator defaults (max_retries = 3,
delay = 1.0, exceptions = (Exception,)), an operation that raises a
configured exception on its first invocation and would succeed on its
second is NOT re-attempted: the wrapper makes exactly one invocation and
raises `AttributeError` (from the broken `time.sleep` call, since client.py
imports `from time import time`), instead of sleeping and retrying and
instead of the operation's own exception. -/
theorem retry_decorator_crashes_instead_of_retrying :
    retryWrapper (fun _ => true) 3 1
        (fun n => if n = 0 then Attempt.exn (PyExc.valueError "transient")
                  else Attempt.ok (0 : Nat))
      = (CallResult.raised (PyExc.attributeError sleepAttrMsg), 1) := by
  decide

/-- C3 (counterexample): a response with `code != 0` on the retry-wrapped
`upload_file_part` does NOT make the `ValueError` carrying the server
message propagate to the caller: the call raises the `time.sleep`
`AttributeError` instead. -/
theorem upload_part_app_error_replaced_by_attribute_error :
    (uploadFilePart (fun _ => ⟨99, "bad auth"⟩)).1
        = CallResult.raised (PyExc.attributeError sleepAttrMsg) ∧
    (uploadFilePart (fun _ => ⟨99, "bad auth"⟩)).1
        ≠ CallResult.raised (PyExc.valueError "Failed to upload part: bad auth") := by
  decide

/-- C3 (amended): a first-attempt response with `code != 0` on
`upload_file_part` leads to exactly one invocation — the request is never
re-executed — and an exception propagates to the caller after that single
attempt; but the propagated exception is the `AttributeError` from the
broken `time.sleep` call, not the `ValueError` carrying the server message.
For the operations not wrapped in `retry_on_exception`, a `code != 0`
response raises the `ValueError` carrying the server message directly
(second conjunct, the shared `if data.get("code") != 0` check pattern,
here for `upload_file_prepare`'s message). -/
theorem upload_part_app_error_single_attempt (responses : Nat → ApiResponse)
    (resp : ApiResponse) (h : (responses 0).code ≠ 0) (h2 : resp.code ≠ 0) :
    uploadFilePart responses
        = (CallResult.raised (PyExc.attributeError sleepAttrMsg), 1) ∧
    uploadFilePartOnce (responses 0)
        = Attempt.exn (PyExc.valueError ("Failed to upload part: " ++ (responses 0).msg)) ∧
    (if resp.code ≠ 0
        then Except.error (PyExc.valueError ("Failed to prepare upload: " ++ resp.msg))
        else Except.ok resp)
      = Except.error (PyExc.valueError ("Failed to prepare upload: " ++ resp.msg)) := by
  refine ⟨?_, ?_, ?_⟩
  · simp [uploadFilePart, retryWrapper, retryFuel, uploadFilePartOnce, h, timeSleep]
  · simp [uploadFilePartOnce, h]
  · simp [h2]

/-- Witness for the amended C3 at a concrete input. -/
theorem upload_part_app_error_single_attempt_witness :
    uploadFilePart (fun _ => ⟨1254, "Invalid token"⟩)
        = (CallResult.raised (PyExc.attributeError sleepAttrMsg), 1) :=
  (upload_part_app_error_single_attempt (fun _ => ⟨1254, "Invalid token"⟩)
    ⟨1254, "Invalid token"⟩ (by decide) (by decide)).1

/-! ### Theorems for claims C4, C5 and C9 -/

/-- C4 (code bug): `list_tables` never performs the pagination described by
the spec: whether or not the tenant token is already cached, every call
raises the `AttributeError` for the missing `http_get` attribute, and the
number of tables GET requests issued is 0 (the fourth component). -/
theorem list_tables_always_raises_attribute_error :
    listTables none ⟨0, "", "TOKEN"⟩
        = (.error httpGetAttrError, some "TOKEN", 1, 0) ∧
    listTables (some "TOKEN") ⟨0, "", "TOKEN"⟩
        = (.error httpGetAttrError, some "TOKEN", 0, 0) :=
  ⟨rfl, rfl⟩

/-- C5 (counterexample): on a fresh client (no cached token) whose
token fetch succeeds, `get_table_fields` does raise the `http_get`
`AttributeError`, but only after one HTTP request — the token-fetch POST
issued by `_get_headers` (third component = 1) — contradicting "before any
HTTP request is issued". -/
theorem get_table_fields_token_request_precedes_attribute_error :
    (getTableFields none ⟨0, "", "TOKEN"⟩).1 = .error httpGetAttrError ∧
    (getTableFields none ⟨0, "", "TOKEN"⟩).2.2.1 = 1 :=
  ⟨rfl, rfl⟩

/-- C5 (amended): every call to `get_table_fields` and to `list_tables`
whose header-building token step succeeds raises the `AttributeError` for
the missing `http_get` attribute before the fields/tables GET request is
issued (fourth component 0); the only request that can precede the
`AttributeError` is the token fetch (third component, at most 1, and 0 when
a non-empty token is already cached). -/
theorem methods_raise_attribute_error_at_http_get (tok : Option String)
    (tokenResp : TokenResponse) (t : String) (tok2 : Option String) (n : Nat)
    (h : getTenantAccessToken tok tokenResp = (.ok t, tok2, n)) :
    getTableFields tok tokenResp = (.error httpGetAttrError, tok2, n, 0) ∧
    listTables tok tokenResp = (.error httpGetAttrError, tok2, n, 0) ∧
    n ≤ 1 := by
  refine ⟨?_, ?_, ?_⟩
  · simp [getTableFields, h]
  · simp [listTables, h]
  · have hle : (getTenantAccessToken tok tokenResp).2.2 ≤ 1 := by
      unfold getTenantAccessToken
      split
      · simp
      · split <;> simp
    rw [h] at hle
    exact hle

/-- Witness for the amended C5 at a concrete input. -/
theorem methods_raise_attribute_error_at_http_get_witness :
    getTableFields (some "T") ⟨1, "x", "y"⟩
        = (.error httpGetAttrError, some "T", 0, 0) :=
  (methods_raise_attribute_error_at_http_get (some "T") ⟨1, "x", "y"⟩
    "T" (some "T") 0 rfl).1

/-- C9 (counterexample): a successful token fetch that returns the empty
string leaves `_tenant_access_token` set to `""` — which is set (not None)
— yet the next call issues another token-fetch request (third
component 1, not 0), because line 82 tests Python truthiness, and `""` is
falsy.  So the token-fetch request is not issued at most once per
successful fetch. -/
theorem tenant_token_empty_string_refetch :
    getTenantAccessToken none ⟨0, "", ""⟩ = (.ok "", some "", 1) ∧
    getTenantAccessToken (some "") ⟨0, "", "t2"⟩ = (.ok "t2", some "t2", 1) ∧
    (some "" : Option String) ≠ none :=
  ⟨rfl, rfl, by decide⟩

/-- C9 (amended): the tenant token is fetched lazily and cached, for
non-empty tokens: if the cached token is a non-empty string, it is returned
with no network call; on a cache miss, a `code != 0` response raises
`ValueError` carrying the server message and leaves the cached token
unchanged; a `code = 0` response caches the returned token, and when that
token is non-empty every later call returns it with no further request —
so after a successful fetch of a non-empty token, no further token-fetch
request is ever issued. -/
theorem tenant_token_lazy_cached (tok : Option String) (t : String)
    (resp resp2 : TokenResponse) (ht : t ≠ "") (hmiss : optStrTruthy tok = false) :
    getTenantAccessToken (some t) resp = (.ok t, some t, 0) ∧
    (resp.code ≠ 0 → getTenantAccessToken tok resp
        = (.error (.valueError ("Failed to get access token: " ++ resp.msg)), tok, 1)) ∧
    (resp.code = 0 →
      getTenantAccessToken tok resp
          = (.ok resp.tenant_access_token, some resp.tenant_access_token, 1) ∧
      (resp.tenant_access_token ≠ "" →
        getTenantAccessToken (some resp.tenant_access_token) resp2
          = (.ok resp.tenant_access_token, some resp.tenant_access_token, 0))) := by
  refine ⟨?_, ?_, ?_⟩
  · simp [getTenantAccessToken, optStrTruthy, ht]
  · intro hc
    simp [getTenantAccessToken, hmiss, hc]
  · intro hc
    refine ⟨?_, ?_⟩
    · simp [getTenantAccessToken, hmiss, hc]
    · intro hne
      simp [getTenantAccessToken, optStrTruthy, hne]

/-- Witness for the amended C9 at a concrete input. -/
theorem tenant_token_lazy_cached_witness :
    getTenantAccessToken (some "T") ⟨0, "ok", "X"⟩ = (.ok "T", some "T", 0) :=
  (tenant_token_lazy_cached none "T" ⟨0, "ok", "X"⟩ ⟨0, "ok", "X"⟩
    (by decide) (by decide)).1

/-! ### Theorems for claim C6 (chunk shapes) -/

/-- Bounds that `block_num = ceil(S / block_size)` gives: the blocks cover
the file and the last block starts strictly inside it. -/
lemma ceil_div_bounds (S bs : Nat) (hS : 0 < S) (hbs : 0 < bs) :
    S ≤ ((S + bs - 1) / bs) * bs ∧ (((S + bs - 1) / bs) - 1) * bs < S ∧
      0 < (S + bs - 1) / bs := by
  have hdm := Nat.div_add_mod (S + bs - 1) bs
  have hmlt : (S + bs - 1) % bs < bs := Nat.mod_lt _ hbs
  rcases hq : (S + bs - 1) / bs with _ | q
  · rw [hq] at hdm
    simp at hdm
    omega
  · rw [hq] at hdm
    have h1 : bs * (q + 1) = bs * q + bs := by ring
    have h2 : (q + 1) * bs = bs * q + bs := by ring
    have h3 : (q + 1 - 1) * bs = bs * q := by
      simp
      ring
    rw [h1] at hdm
    rw [h2, h3]
    omega

/-- The lengths of the per-seq chunks, summed over `range n`, telescope to
`min (n * block_size) S`. -/
lemma sum_chunk_lengths (bs S n : Nat) :
    (((List.range n).map fun i => min ((i + 1) * bs) S - i * bs)).sum
      = min (n * bs) S := by
  induction n with
  | zero => simp
  | succ n ih =>
    rw [List.range_succ, List.map_append, List.sum_append, ih]
    have h1 : (n + 1) * bs = n * bs + bs := by ring
    simp only [List.map_cons, List.map_nil, List.sum_cons, List.sum_nil]
    rw [h1]
    omega

/-- C6: for a file of size S > 0 with server parameters block_size > 0 and
block_num = ceil(S / block_size), the chunks produced by `upload_file` have
lengths summing exactly to S, every chunk except the last has length
exactly block_size, the last chunk has length S - (block_num - 1) *
block_size, and the chunks' sequence numbers are the contiguous range
0 .. block_num - 1. -/
theorem upload_chunks_cover_file (l : List Nat) (bs bn : Nat)
    (hS : 0 < l.length) (hbs : 0 < bs) (hbn : bn = (l.length + bs - 1) / bs) :
    ((uploadChunks l bs bn).map fun c => c.2.length).sum = l.length ∧
    (∀ i, i + 1 < bn →
      ((uploadChunks l bs bn).map fun c => c.2.length)[i]? = some bs) ∧
    ((uploadChunks l bs bn).map fun c => c.2.length)[bn - 1]?
        = some (l.length - (bn - 1) * bs) ∧
    (uploadChunks l bs bn).map Prod.fst = List.range bn := by
  have hb := ceil_div_bounds l.length bs hS hbs
  rw [← hbn] at hb
  obtain ⟨hub, hlb, hpos⟩ := hb
  have hlen : ∀ i, i < bn →
      (pySlice l (i * bs) (min ((i + 1) * bs) l.length)).length
        = min ((i + 1) * bs) l.length - i * bs := by
    intro i hi
    have hi' : i * bs ≤ (bn - 1) * bs := Nat.mul_le_mul_right _ (by omega)
    have hstart : i * bs < l.length := lt_of_le_of_lt hi' hlb
    have hmono : i * bs ≤ (i + 1) * bs := Nat.mul_le_mul_right _ (by omega)
    simp only [pySlice, List.length_take, List.length_drop]
    omega
  have hmap : ((uploadChunks l bs bn).map fun c => c.2.length)
      = (List.range bn).map fun i => min ((i + 1) * bs) l.length - i * bs := by
    simp only [uploadChunks, List.map_map]
    refine List.map_congr_left ?_
    intro i hi
    simp only [Function.comp_apply]
    exact hlen i (List.mem_range.mp hi)
  refine ⟨?_, ?_, ?_, ?_⟩
  · rw [hmap, sum_chunk_lengths]
    omega
  · intro i hi
    rw [hmap]
    have hle : (i + 1) * bs ≤ (bn - 1) * bs := Nat.mul_le_mul_right _ (by omega)
    have h1 : (i + 1) * bs = i * bs + bs := by ring
    simp only [List.getElem?_map, List.getElem?_range, (by omega : i < bn),
      if_true, Option.map_some']
    congr 1
    omega
  · rw [hmap]
    have hlt : bn - 1 < bn := by omega
    have h1 : bn - 1 + 1 = bn := by omega
    simp only [List.getElem?_map, List.getElem?_range, hlt, if_true,
      Option.map_some']
    congr 1
    rw [h1]
    omega
  · simp [uploadChunks, List.map_map, Function.comp_def]

/-- Witness for C6 at a concrete input: a 5-byte file, block_size 2,
block_num = ceil(5/2) = 3. -/
theorem upload_chunks_cover_file_witness :
    ((uploadChunks [9, 8, 7, 6, 5] 2 3).map fun c => c.2.length).sum = 5 :=
  (upload_chunks_cover_file [9, 8, 7, 6, 5] 2 3 (by decide) (by decide)
    (by decide)).1

/-! ### Theorems for claim C7 (part ordering and finish gating) -/

/-- Shape of the part loop: starting at seq `s` with fuel `fuel`, the seqs
for which a part call was issued are the contiguous block `range' s k` for
some `k ≤ fuel`, and only a run that exhausted the fuel (all parts
succeeded) escapes without an exception. -/
lemma uploadPartsFuel_spec (responses : Nat → Nat → ApiResponse) :
    ∀ fuel s, ∃ k, k ≤ fuel ∧
      (uploadPartsFuel responses fuel s).1 = List.range' s k ∧
      ((uploadPartsFuel responses fuel s).2 = none → k = fuel) := by
  intro fuel
  induction fuel with
  | zero => exact fun s => ⟨0, le_rfl, rfl, fun _ => rfl⟩
  | succ fuel ih =>
    intro s
    rcases hc : (uploadFilePart (responses s)).1 with a | e | _
    · obtain ⟨k, hk, h1, h2⟩ := ih (s + 1)
      refine ⟨k + 1, by omega, ?_, ?_⟩
      · simp only [uploadPartsFuel, hc, h1]
        rfl
      · intro hnone
        simp only [uploadPartsFuel, hc] at hnone
        have := h2 hnone
        omega
    · refine ⟨1, by omega, ?_, ?_⟩
      · simp only [uploadPartsFuel, hc]
        rfl
      · intro hnone
        simp only [uploadPartsFuel, hc] at hnone
        exact absurd hnone (Option.some_ne_none e)
    · obtain ⟨k, hk, h1, h2⟩ := ih (s + 1)
      refine ⟨k + 1, by omega, ?_, ?_⟩
      · simp only [uploadPartsFuel, hc, h1]
        rfl
      · intro hnone
        simp only [uploadPartsFuel, hc] at hnone
        have := h2 hnone
        omega

/-- C7: the part calls of an `upload_file` execution are issued with
strictly increasing sequence numbers; when every part call succeeds they
cover exactly 0 .. block_num - 1 and the trace is prepare, then all parts
in order, then finish; when some part call fails (after the wrapper is
done with it), finish is never called for that session. -/
theorem upload_parts_ordered_finish_gated (responses : Nat → Nat → ApiResponse)
    (bn : Nat) :
    List.Pairwise (· < ·) (uploadParts responses bn).1 ∧
    ((uploadParts responses bn).2 = none →
      (uploadParts responses bn).1 = List.range bn ∧
      uploadFileTrace responses bn
        = UploadEvent.prepare ::
            ((List.range bn).map UploadEvent.part ++ [UploadEvent.finish bn])) ∧
    (∀ e, (uploadParts responses bn).2 = some e →
      UploadEvent.finish bn ∉ uploadFileTrace responses bn) := by
  obtain ⟨k, hk, h1, h2⟩ := uploadPartsFuel_spec responses bn 0
  have hr : (uploadParts responses bn).1 = List.range' 0 k := h1
  refine ⟨?_, ?_, ?_⟩
  · rw [hr]
    exact List.pairwise_lt_range' 0 k
  · intro hnone
    have hkbn : k = bn := h2 hnone
    have hrange : (uploadParts responses bn).1 = List.range bn := by
      rw [hr, hkbn, List.range_eq_range']
    refine ⟨hrange, ?_⟩
    simp only [uploadFileTrace, hrange, hnone]
  · intro e he
    simp only [uploadFileTrace, he, List.mem_cons, List.mem_append,
      List.mem_map, List.not_mem_nil, or_false]
    rintro (h | ⟨x, _, h⟩ | h) <;> simp_all

/-- Witness for C7 at a concrete input: two parts, every request answered
with code 0, so both parts are issued in order and finish follows. -/
theorem upload_parts_ordered_finish_gated_witness :
    (uploadParts (fun _ _ => ⟨0, "ok"⟩) 2).1 = List.range 2 ∧
    uploadFileTrace (fun _ _ => ⟨0, "ok"⟩) 2
      = UploadEvent.prepare ::
          ((List.range 2).map UploadEvent.part ++ [UploadEvent.finish 2]) :=
  (upload_parts_ordered_finish_gated (fun _ _ => ⟨0, "ok"⟩) 2).2.1 rfl

/-! ### Theorems for claim C8 (the part request and its checksum) -/

/-- The two running Adler sums stay below the modulus 65521. -/
lemma adler32_foldl_bound (data : List Nat) :
    ∀ p : Nat × Nat, p.1 < 65521 → p.2 < 65521 →
      (data.foldl (fun (p : Nat × Nat) byte =>
          ((p.1 + byte) % 65521, (p.2 + p.1 + byte) % 65521)) p).1 < 65521 ∧
      (data.foldl (fun (p : Nat × Nat) byte =>
          ((p.1 + byte) % 65521, (p.2 + p.1 + byte) % 65521)) p).2 < 65521 := by
  induction data with
  | nil => exact fun p h1 h2 => ⟨h1, h2⟩
  | cons b t ih =>
    intro p h1 h2
    exact ih _ (Nat.mod_lt _ (by omega)) (Nat.mod_lt _ (by omega))

/-- An Adler-32 digest always fits in 32 bits. -/
lemma adler32_lt (data : List Nat) : adler32 data < 2 ^ 32 := by
  have h := adler32_foldl_bound data (1, 0) (by omega) (by omega)
  have h32 : (2 : Nat) ^ 32 = 4294967296 := by norm_num
  have hdef : adler32 data
      = (data.foldl (fun (p : Nat × Nat) byte =>
          ((p.1 + byte) % 65521, (p.2 + p.1 + byte) % 65521)) (1, 0)).2 * 65536
        + (data.foldl (fun (p : Nat × Nat) byte =>
          ((p.1 + byte) % 65521, (p.2 + p.1 + byte) % 65521)) (1, 0)).1 := rfl
  rw [hdef]
  omega

/-- C8: for every chunk byte string, the multipart request built by
`upload_file_part` carries the form fields upload_id, seq,
size = the chunk's byte length, and checksum — the Adler-32 digest of
exactly the chunk bytes (the `& 0xFFFFFFFF` mask is the identity, since the
digest fits in 32 bits) — plus a binary file part containing exactly the
chunk bytes; so a checksum accompanies every chunk upload. -/
theorem upload_part_request_fields (upload_id : String) (seq : Nat)
    (file_data : List Nat) :
    (uploadPartRequest upload_id seq file_data).upload_id = upload_id ∧
    (uploadPartRequest upload_id seq file_data).seq = seq ∧
    (uploadPartRequest upload_id seq file_data).size = file_data.length ∧
    (uploadPartRequest upload_id seq file_data).filePart = file_data ∧
    (uploadPartRequest upload_id seq file_data).checksum = adler32 file_data ∧
    adler32 file_data < 2 ^ 32 := by
  refine ⟨rfl, rfl, rfl, rfl, ?_, adler32_lt file_data⟩
  show adler32 file_data &&& 0xFFFFFFFF = adler32 file_data
  have hmask : (0xFFFFFFFF : Nat) = 2 ^ 32 - 1 := by norm_num
  rw [hmask]
  exact Nat.and_pow_two_sub_one_of_lt_two_pow (adler32_lt file_data)

end PyBitable
